import Mathlib

/-!
Verification development for the Huntarr acquisition-cycle engine.

We shallowly embed the Radarr quality-upgrade cycle
(src/primary/apps/radarr/upgrade.py), the manual cycle-reset endpoint
(src/primary/web_server.py, reset_app_cycle) and the Prowlarr connection
test (src/primary/apps/prowlarr_routes.py, test_connection).

External collaborators that live outside the embedded files (the date
parser, the dedup store, the hourly cap check, the stop signal, the
remote API and the random shuffle inside random.sample) are modelled as
explicit parameters of the cycle environment; theorems quantify over
them.  Time is measured in days as an integer, so that adding a
day-count delay to a parsed release date is integer addition.
-/

namespace Huntarr

/-- A movie candidate as consumed by the upgrade cycle: the fields of the
Radarr payload that the cycle reads.  releaseDate is the raw string of
the JSON field; none models an absent field. -/
structure Movie where
  id : Nat
  title : String
  releaseDate : Option String
deriving DecidableEq

/-- The per-instance settings read by process_cutoff_upgrades. -/
structure UpgradeSettings where
  huntUpgradeMovies : Int
  skipFutureReleases : Bool
  processNoReleaseDates : Bool
  releaseDateDelayDays : Int
  tagProcessedItems : Bool
deriving DecidableEq

/-- The observable side effects of one cycle, in loop order: ids passed to
movie_search, ids passed to add_processed_id, ids for which
increment_stat_only was called, ids tagged, ids logged to history, and
the processed_something flag returned by the cycle. -/
structure CycleEffects where
  searchCalls : List Nat
  markedProcessed : List Nat
  statIncrements : List Nat
  tagged : List Nat
  history : List Nat
  processedSomething : Bool
deriving DecidableEq

/-- The effects of a cycle that acted on nothing. -/
def CycleEffects.empty : CycleEffects :=
  { searchCalls := []
    markedProcessed := []
    statIncrements := []
    tagged := []
    history := []
    processedSomething := false }

/-- Environment of one cycle run: the fetch result (none models a failed
fetch returning None), the external date parser, the current UTC time,
the settings, the dedup-store query, the permutation drawn inside
random.sample, and the per-iteration outcomes of the stop signal, the
hourly cap check (none models the check raising, which the code catches
and treats as not exceeded) and the movie_search call. -/
structure CycleEnv where
  fetch : Option (List Movie)
  parseDate : String → Option Int
  now : Int
  settings : UpgradeSettings
  isProcessed : Nat → Bool
  shuffle : List Movie → List Movie
  capCheck : Nat → Option Bool
  stopCheck : Nat → Bool
  searchOk : Nat → Bool

/-- should_delay_movie_search from upgrade.py: delay exactly when a
positive delay is configured, the release-date string is present and
non-empty, it parses, and now is before releaseDate + delayDays. -/
def should_delay_movie_search (parseDate : String → Option Int) (now : Int)
    (releaseDateStr : Option String) (delayDays : Int) : Bool :=
  if delayDays ≤ 0 then false
  else
    match releaseDateStr with
    | none => false
    | some s =>
      if s = "" then false
      else
        match parseDate s with
        | none => false
        | some d => decide (now < d + delayDays)

/-- The per-movie keep decision of the future-release filter branch of
process_cutoff_upgrades (only executed when skip_future_releases is
enabled): a movie with a parsed date is kept iff the date is not in the
future; a movie with a missing, empty or unparseable date is kept iff
process_no_release_dates is enabled. -/
def keepWhenSkippingFuture (parseDate : String → Option Int) (now : Int)
    (processNoReleaseDates : Bool) (m : Movie) : Bool :=
  match m.releaseDate with
  | some s =>
    if s = "" then processNoReleaseDates
    else
      match parseDate s with
      | some d => if now < d then false else true
      | none => processNoReleaseDates
  | none => processNoReleaseDates

/-- True when the movie has a missing, empty or unparseable release
date. -/
def dateMissingOrUnparseable (parseDate : String → Option Int) (m : Movie) : Bool :=
  match m.releaseDate with
  | none => true
  | some s => if s = "" then true else (parseDate s).isNone

/-- The raw candidate batch: an empty list when the fetch failed. -/
def fetchList (env : CycleEnv) : List Movie :=
  env.fetch.getD []

/-- The batch after the (conditional) future-release filter. -/
def afterFuture (env : CycleEnv) : List Movie :=
  if env.settings.skipFutureReleases then
    (fetchList env).filter
      (keepWhenSkippingFuture env.parseDate env.now env.settings.processNoReleaseDates)
  else fetchList env

/-- The batch after the (conditional) release-date delay filter. -/
def afterDelay (env : CycleEnv) : List Movie :=
  if 0 < env.settings.releaseDateDelayDays then
    (afterFuture env).filter (fun m =>
      !(should_delay_movie_search env.parseDate env.now m.releaseDate
          env.settings.releaseDateDelayDays))
  else afterFuture env

/-- The unprocessed movies: the pool from which random.sample draws. -/
def eligiblePool (env : CycleEnv) : List Movie :=
  (afterDelay env).filter (fun m => !(env.isProcessed m.id))

/-- The sample size computed by the code:
min(hunt_upgrade_movies, len(unprocessed_movies)). -/
def sampleCount (env : CycleEnv) : Int :=
  min env.settings.huntUpgradeMovies ((eligiblePool env).length : Int)

/-- The work list: random.sample modelled as taking the first
sampleCount elements of a permutation of the pool. -/
def moviesToProcess (env : CycleEnv) : List Movie :=
  (env.shuffle (eligiblePool env)).take (sampleCount env).toNat

/-- The per-item loop at the end of process_cutoff_upgrades.  At each
iteration i the loop first polls the stop signal and breaks if set, then
checks the hourly cap (a raised exception, modelled by none, is caught
and processing continues) and breaks if exceeded, then invokes
movie_search; only on success are the dedup mark, the stat increment,
the optional tag and the history entry recorded and the
processed-something flag set; a failed search just moves on. -/
def processLoop (tagEnabled : Bool) (capCheck : Nat → Option Bool)
    (stopCheck : Nat → Bool) (searchOk : Nat → Bool) :
    List Movie → Nat → CycleEffects
  | [], _ => CycleEffects.empty
  | m :: rest, i =>
    if stopCheck i then CycleEffects.empty
    else if capCheck i = some true then CycleEffects.empty
    else
      let tail := processLoop tagEnabled capCheck stopCheck searchOk rest (i + 1)
      if searchOk m.id then
        { searchCalls := m.id :: tail.searchCalls
          markedProcessed := m.id :: tail.markedProcessed
          statIncrements := m.id :: tail.statIncrements
          tagged := if tagEnabled then m.id :: tail.tagged else tail.tagged
          history := m.id :: tail.history
          processedSomething := true }
      else
        { tail with searchCalls := m.id :: tail.searchCalls }

/-- process_cutoff_upgrades: a failed or empty fetch, a batch emptied by
the future and delay filters, or a pool emptied by the already-processed
filter each end the cycle at once with no effects; otherwise
random.sample draws the work list, raising ValueError when the computed
sample size is negative (CPython rejects k outside 0..n), and the item
loop runs. -/
def runCycle (env : CycleEnv) : Except String CycleEffects :=
  match env.fetch with
  | none => Except.ok CycleEffects.empty
  | some movies =>
    if movies = [] then Except.ok CycleEffects.empty
    else if afterDelay env = [] then Except.ok CycleEffects.empty
    else if eligiblePool env = [] then Except.ok CycleEffects.empty
    else if 0 ≤ sampleCount env ∧ sampleCount env ≤ ((eligiblePool env).length : Int) then
      Except.ok (processLoop env.settings.tagProcessedItems env.capCheck env.stopCheck
        env.searchOk (moviesToProcess env) 0)
    else Except.error ("ValueError: Sample larger than population or is negative")

/-- The app names accepted by the manual cycle-reset endpoint
reset_app_cycle in web_server.py. -/
def knownResetApps : List String :=
  ["sonarr", "radarr", "lidarr", "readarr", "whisparr", "eros", "swaparr"]

/-- The error kinds of the reset endpoint, each corresponding to one of
its failure responses. -/
inductive ResetError where
  | invalidAppName
  | notEnabled
  | notConfigured
  | resetFailed
deriving DecidableEq

/-- The observable outcome of one reset request: the success flag and
HTTP status of the JSON response, the error kind when failing, and
whether db.create_reset_request was invoked at all. -/
structure ResetResult where
  success : Bool
  errorKind : Option ResetError
  statusCode : Nat
  attemptedCreate : Bool
deriving DecidableEq

/-- Environment of the reset endpoint: the enabled flag of the loaded
swaparr settings (none models falsy settings, the flag defaulting to
false when the key is absent), the configured apps list, and the outcome
of db.create_reset_request (none models it raising, which the handler
catches and turns into success = False). -/
structure ResetEnv where
  swaparrSettings : Option Bool
  configuredApps : List String
  createResetRequest : String → Option Bool

/-- The tail of reset_app_cycle once all configuration checks passed:
create the reset request; a False return or a raised exception both
yield the 500 failure response. -/
def resetCreateStep (env : ResetEnv) (appName : String) : ResetResult :=
  match env.createResetRequest appName with
  | some true =>
    { success := true, errorKind := none, statusCode := 200, attemptedCreate := true }
  | some false =>
    { success := false, errorKind := some ResetError.resetFailed, statusCode := 500,
      attemptedCreate := true }
  | none =>
    { success := false, errorKind := some ResetError.resetFailed, statusCode := 500,
      attemptedCreate := true }

/-- reset_app_cycle from web_server.py: reject unknown app names, reject
swaparr when not enabled, reject other known apps when not configured;
only then attempt to create the pending reset request. -/
def reset_app_cycle (env : ResetEnv) (appName : String) : ResetResult :=
  if appName ∈ knownResetApps then
    if appName = "swaparr" then
      if env.swaparrSettings.getD false then resetCreateStep env appName
      else
        { success := false, errorKind := some ResetError.notEnabled, statusCode := 400,
          attemptedCreate := false }
    else
      if appName ∈ env.configuredApps then resetCreateStep env appName
      else
        { success := false, errorKind := some ResetError.notConfigured, statusCode := 400,
          attemptedCreate := false }
  else
    { success := false, errorKind := some ResetError.invalidAppName, statusCode := 400,
      attemptedCreate := false }

/-- Outcome of the preliminary socket probe in test_connection:
connect_ex returned non-zero, a DNS resolution failure, some other
socket exception (logged, the request still proceeds), or success. -/
inductive SocketProbe where
  | refused
  | dnsFailure
  | otherError
  | ok
deriving DecidableEq

/-- Outcome of the requests.get call in test_connection.  A response
carries the HTTP status and the body: none models a body that is not
valid JSON, some v a JSON object whose optional version field is v. -/
inductive HttpResult where
  | timeout
  | connectionError (details : String)
  | requestException (msg : String)
  | otherException (msg : String)
  | response (status : Nat) (jsonVersion : Option (Option String))
deriving DecidableEq

/-- The dictionary returned by test_connection: the success flag, the
message string when present, and the version field on success. -/
structure ConnResult where
  success : Bool
  message : Option String
  version : Option String
deriving DecidableEq

/-- Input of one test_connection call together with the outcomes of its
socket and HTTP operations. -/
structure TestEnv where
  url : String
  apiKey : String
  timeoutSecs : Nat
  socket : SocketProbe
  http : HttpResult
deriving DecidableEq

/-- The URL after the auto-correction at the top of test_connection:
a missing scheme is prefixed with http. -/
def correctedUrl (u : String) : String :=
  if !(u.startsWith ("http://") || u.startsWith ("https://")) then "http://" ++ u else u

/-- Substring test, used to model the Python in-operator on strings. -/
def containsSub (haystack needle : String) : Bool :=
  (haystack.splitOn needle).length > 1

/-- The message built by the ConnectionError handler of test_connection,
dispatching on the exception text. -/
def connectionErrorMessage (url details : String) : String :=
  if containsSub details ("Connection refused") then
    "Connection refused - Prowlarr is not running on " ++ url ++ " or the port is incorrect"
  else if containsSub details ("Name or service not known") ||
      containsSub details ("getaddrinfo failed") then
    "DNS resolution failed - Cannot find host. Check your URL."
  else
    "Connection error - Check if Prowlarr is running: " ++ details

/-- test_connection from prowlarr_routes.py.  The whole body sits in one
try block whose handlers each return a failure dictionary, so every
outcome yields a ConnResult: the socket probe may return early, HTTP
401/403/404/5xx have dedicated messages, raise_for_status turns the
remaining 4xx statuses into a RequestException caught below, a non-JSON
body fails, and a parsed body succeeds with the version field. -/
def test_connection (env : TestEnv) : ConnResult :=
  match env.socket with
  | SocketProbe.refused =>
    { success := false
      message := some ("Connection refused - Unable to connect to " ++ correctedUrl env.url ++
        ". Please check if the server is running and the port is correct.")
      version := none }
  | SocketProbe.dnsFailure =>
    { success := false
      message := some ("DNS resolution failed - Cannot resolve hostname. Please check your URL.")
      version := none }
  | _ =>
    match env.http with
    | HttpResult.timeout =>
      { success := false
        message := some ("Connection timed out after " ++ toString env.timeoutSecs ++ " seconds")
        version := none }
    | HttpResult.connectionError details =>
      { success := false, message := some (connectionErrorMessage (correctedUrl env.url) details),
        version := none }
    | HttpResult.requestException msg =>
      { success := false, message := some ("Connection test failed: " ++ msg), version := none }
    | HttpResult.otherException msg =>
      { success := false, message := some ("Unexpected error: " ++ msg), version := none }
    | HttpResult.response status jsonVersion =>
      if status = 401 then
        { success := false, message := some ("Authentication failed: Invalid API key"),
          version := none }
      else if status = 403 then
        { success := false, message := some ("Access forbidden: Check API key permissions"),
          version := none }
      else if status = 404 then
        { success := false
          message := some ("API endpoint not found: not a valid Prowlarr server. Check your URL.")
          version := none }
      else if 500 ≤ status then
        { success := false
          message := some ("Prowlarr server error (HTTP " ++ toString status ++
            "): The Prowlarr server is experiencing issues")
          version := none }
      else if 400 ≤ status then
        { success := false
          message := some ("Connection test failed: HTTP error " ++ toString status)
          version := none }
      else
        match jsonVersion with
        | none =>
          { success := false
            message := some ("Invalid JSON response from Prowlarr API - not a valid Prowlarr server")
            version := none }
        | some v =>
          { success := true
            message := some ("Successfully connected to Prowlarr API")
            version := some (v.getD ("unknown")) }

/-- A concrete date parser for test instances: the string past parses to
day -10, the string future to day 10, everything else fails. -/
def pdTest : String → Option Int := fun s =>
  if s = "past" then some (-10)
  else if s = "future" then some 10
  else none

/-- A candidate with no releaseDate field. -/
def mNoDate : Movie := { id := 1, title := "A", releaseDate := none }

/-- A candidate released ten days ago under pdTest. -/
def mPast : Movie := { id := 2, title := "B", releaseDate := some "past" }

/-- A candidate released ten days in the future under pdTest. -/
def mFuture : Movie := { id := 3, title := "C", releaseDate := some "future" }

/-- Cycle environment refuting C1: skip_future_releases disabled and
process_no_release_dates disabled, with one date-less candidate. -/
def envC1 : CycleEnv :=
  { fetch := some [mNoDate]
    parseDate := pdTest
    now := 0
    settings :=
      { huntUpgradeMovies := 1
        skipFutureReleases := false
        processNoReleaseDates := false
        releaseDateDelayDays := 0
        tagProcessedItems := false }
    isProcessed := fun _ => false
    shuffle := id
    capCheck := fun _ => some false
    stopCheck := fun _ => false
    searchOk := fun _ => true }

/-- Cycle environment for the C1 witness: skip_future_releases enabled
and process_no_release_dates enabled, with one date-less candidate. -/
def envC1w : CycleEnv :=
  { fetch := some [mNoDate]
    parseDate := pdTest
    now := 0
    settings :=
      { huntUpgradeMovies := 1
        skipFutureReleases := true
        processNoReleaseDates := true
        releaseDateDelayDays := 0
        tagProcessedItems := false }
    isProcessed := fun _ => false
    shuffle := id
    capCheck := fun _ => some false
    stopCheck := fun _ => false
    searchOk := fun _ => true }

/-- Cycle environment refuting C2: a negative hunt count with one
eligible candidate. -/
def envC2 : CycleEnv :=
  { fetch := some [mPast]
    parseDate := pdTest
    now := 0
    settings :=
      { huntUpgradeMovies := -1
        skipFutureReleases := false
        processNoReleaseDates := false
        releaseDateDelayDays := 0
        tagProcessedItems := false }
    isProcessed := fun _ => false
    shuffle := id
    capCheck := fun _ => some false
    stopCheck := fun _ => false
    searchOk := fun _ => true }

/-- Cycle environment for the C2 witness: hunt count 1 over two
eligible candidates. -/
def envC2w : CycleEnv :=
  { fetch := some [mPast, mNoDate]
    parseDate := pdTest
    now := 0
    settings :=
      { huntUpgradeMovies := 1
        skipFutureReleases := false
        processNoReleaseDates := false
        releaseDateDelayDays := 0
        tagProcessedItems := false }
    isProcessed := fun _ => false
    shuffle := id
    capCheck := fun _ => some false
    stopCheck := fun _ => false
    searchOk := fun _ => true }

/-- Cycle environment for the C3 witness: the hourly cap is already
exceeded before the first of a one-element work list. -/
def envC3 : CycleEnv :=
  { fetch := some [mPast]
    parseDate := pdTest
    now := 0
    settings :=
      { huntUpgradeMovies := 1
        skipFutureReleases := false
        processNoReleaseDates := false
        releaseDateDelayDays := 0
        tagProcessedItems := false }
    isProcessed := fun _ => false
    shuffle := id
    capCheck := fun _ => some true
    stopCheck := fun _ => false
    searchOk := fun _ => true }

/-- Cycle environment for the C6 witness: skip_future_releases enabled
with one future and one past candidate. -/
def envC6 : CycleEnv :=
  { fetch := some [mFuture, mPast]
    parseDate := pdTest
    now := 0
    settings :=
      { huntUpgradeMovies := 5
        skipFutureReleases := true
        processNoReleaseDates := false
        releaseDateDelayDays := 0
        tagProcessedItems := false }
    isProcessed := fun _ => false
    shuffle := id
    capCheck := fun _ => some false
    stopCheck := fun _ => false
    searchOk := fun _ => true }

/-- Cycle environment for the C7 witness: the fetch failed. -/
def envC7 : CycleEnv :=
  { fetch := none
    parseDate := pdTest
    now := 0
    settings :=
      { huntUpgradeMovies := 1
        skipFutureReleases := true
        processNoReleaseDates := false
        releaseDateDelayDays := 0
        tagProcessedItems := false }
    isProcessed := fun _ => false
    shuffle := id
    capCheck := fun _ => some false
    stopCheck := fun _ => false
    searchOk := fun _ => true }

/-- Reset environment for the C9 witness: only radarr configured,
swaparr absent, creation succeeding when reached. -/
def envC9 : ResetEnv :=
  { swaparrSettings := none
    configuredApps := ["radarr"]
    createResetRequest := fun _ => some true }

/-- Connection-test environment for the C10 witness: the socket probe
reports a refused connection. -/
def envC10 : TestEnv :=
  { url := "example.org:9696"
    apiKey := "k"
    timeoutSecs := 30
    socket := SocketProbe.refused
    http := HttpResult.timeout }

/-- The dedup mark, stat increment and history entry of the loop are
exactly the successfully searched ids, and the processed flag is their
non-emptiness. -/
theorem processLoop_effects (t : Bool) (c : Nat → Option Bool) (s ok : Nat → Bool)
    (l : List Movie) : ∀ i : Nat,
    (processLoop t c s ok l i).markedProcessed
        = List.filter ok (processLoop t c s ok l i).searchCalls ∧
    (processLoop t c s ok l i).statIncrements
        = List.filter ok (processLoop t c s ok l i).searchCalls ∧
    (processLoop t c s ok l i).history
        = List.filter ok (processLoop t c s ok l i).searchCalls ∧
    (processLoop t c s ok l i).processedSomething
        = (processLoop t c s ok l i).searchCalls.any ok := by
  induction l with
  | nil => intro i; simp [processLoop, CycleEffects.empty]
  | cons m rest ih =>
    intro i
    obtain ⟨ih1, ih2, ih3, ih4⟩ := ih (i + 1)
    by_cases h1 : s i = true
    · simp [processLoop, h1, CycleEffects.empty]
    · by_cases h2 : c i = some true
      · simp [processLoop, h1, h2, CycleEffects.empty]
      · by_cases h3 : ok m.id = true
        · simp [processLoop, h1, h2, h3, ih1, ih2, ih3, ih4]
        · simp [processLoop, h1, h2, h3, ih1, ih2, ih3, ih4]

/-- When the stop signal is set at iteration j, only items strictly
before position j can have been searched. -/
theorem processLoop_stop_take (t : Bool) (c : Nat → Option Bool) (s ok : Nat → Bool)
    (j : Nat) (hj : s j = true) :
    ∀ (l : List Movie) (i : Nat), i ≤ j →
      (processLoop t c s ok l i).searchCalls ⊆ (l.take (j - i)).map Movie.id := by
  intro l
  induction l with
  | nil => intro i _; simp [processLoop, CycleEffects.empty]
  | cons m rest ih =>
    intro i hij
    by_cases h1 : s i = true
    · simp [processLoop, h1, CycleEffects.empty]
    · have hlt : i < j := by
        rcases Nat.lt_or_ge i j with h | h
        · exact h
        · exact absurd (Nat.le_antisymm hij h ▸ hj) h1
      have htake : (m :: rest).take (j - i) = m :: rest.take (j - (i + 1)) := by
        have hsub : j - i = (j - (i + 1)) + 1 := by omega
        rw [hsub, List.take_succ_cons]
      have ihtail := ih (i + 1) (by omega)
      by_cases h2 : c i = some true
      · simp [processLoop, h1, h2, CycleEffects.empty]
      · by_cases h3 : ok m.id = true
        · rw [htake]
          simp only [processLoop, h1, h2, h3, if_neg, if_true, List.map_cons]
          simp only [Bool.false_eq_true, if_false, reduceIte]
          exact List.cons_subset_cons _ ihtail
        · rw [htake]
          simp only [processLoop, h1, h2, h3, List.map_cons]
          simp only [Bool.false_eq_true, if_false, reduceIte]
          exact List.cons_subset_cons _ ihtail

/-- When the hourly cap is exceeded at iteration j, only items strictly
before position j can have been searched. -/
theorem processLoop_cap_take (t : Bool) (c : Nat → Option Bool) (s ok : Nat → Bool)
    (j : Nat) (hj : c j = some true) :
    ∀ (l : List Movie) (i : Nat), i ≤ j →
      (processLoop t c s ok l i).searchCalls ⊆ (l.take (j - i)).map Movie.id := by
  intro l
  induction l with
  | nil => intro i _; simp [processLoop, CycleEffects.empty]
  | cons m rest ih =>
    intro i hij
    by_cases h1 : s i = true
    · simp [processLoop, h1, CycleEffects.empty]
    · by_cases h2 : c i = some true
      · simp [processLoop, h1, h2, CycleEffects.empty]
      · have hlt : i < j := by
          rcases Nat.lt_or_ge i j with h | h
          · exact h
          · exact absurd (Nat.le_antisymm hij h ▸ hj) h2
        have htake : (m :: rest).take (j - i) = m :: rest.take (j - (i + 1)) := by
          have hsub : j - i = (j - (i + 1)) + 1 := by omega
          rw [hsub, List.take_succ_cons]
        have ihtail := ih (i + 1) (by omega)
        by_cases h3 : ok m.id = true
        · rw [htake]
          simp only [processLoop, h1, h2, h3, List.map_cons]
          simp only [Bool.false_eq_true, if_false, reduceIte]
          exact List.cons_subset_cons _ ihtail
        · rw [htake]
          simp only [processLoop, h1, h2, h3, List.map_cons]
          simp only [Bool.false_eq_true, if_false, reduceIte]
          exact List.cons_subset_cons _ ihtail

/-- When neither the stop signal nor the cap ever fires, every selected
item is searched, whatever the per-item outcomes. -/
theorem processLoop_all_searched (t : Bool) (c : Nat → Option Bool) (s ok : Nat → Bool)
    (hs : ∀ n, s n = false) (hc : ∀ n, c n ≠ some true) :
    ∀ (l : List Movie) (i : Nat),
      (processLoop t c s ok l i).searchCalls = l.map Movie.id := by
  intro l
  induction l with
  | nil => intro i; simp [processLoop, CycleEffects.empty]
  | cons m rest ih =>
    intro i
    by_cases h3 : ok m.id = true
    · simp [processLoop, hs i, hc i, h3, ih (i + 1)]
    · simp [processLoop, hs i, hc i, h3, ih (i + 1)]

/-- An empty raw batch leaves nothing after the future filter. -/
theorem afterFuture_eq_nil (env : CycleEnv) (h : fetchList env = []) :
    afterFuture env = [] := by
  unfold afterFuture
  split <;> simp [h]

/-- An empty raw batch leaves nothing after the delay filter. -/
theorem afterDelay_eq_nil (env : CycleEnv) (h : fetchList env = []) :
    afterDelay env = [] := by
  unfold afterDelay
  split <;> simp [afterFuture_eq_nil env h]

/-- The delay-filter output is contained in the future-filter output. -/
theorem afterDelay_subset (env : CycleEnv) : afterDelay env ⊆ afterFuture env := by
  unfold afterDelay
  split
  · exact (List.filter_sublist _).subset
  · exact fun x hx => hx

/-- The eligible pool is contained in the delay-filter output. -/
theorem eligiblePool_subset (env : CycleEnv) : eligiblePool env ⊆ afterDelay env :=
  (List.filter_sublist _).subset

/-- The future-filter output is contained in the raw batch. -/
theorem afterFuture_subset (env : CycleEnv) : afterFuture env ⊆ fetchList env := by
  unfold afterFuture
  split
  · exact (List.filter_sublist _).subset
  · exact fun x hx => hx

/-- A duplicate-free raw batch yields a duplicate-free eligible pool. -/
theorem eligiblePool_nodup (env : CycleEnv) (h : (fetchList env).Nodup) :
    (eligiblePool env).Nodup := by
  have h1 : (afterFuture env).Nodup := by
    unfold afterFuture
    split
    · exact h.filter _
    · exact h
  have h2 : (afterDelay env).Nodup := by
    unfold afterDelay
    split
    · exact h1.filter _
    · exact h1
  exact h2.filter _

/-- When the work list is non-empty, the cycle takes the sampling branch
and runs the item loop over the work list. -/
theorem runCycle_eq_ok (env : CycleEnv)
    (hperm : List.Perm (env.shuffle (eligiblePool env)) (eligiblePool env))
    (hne : moviesToProcess env ≠ []) :
    runCycle env = Except.ok (processLoop env.settings.tagProcessedItems env.capCheck
      env.stopCheck env.searchOk (moviesToProcess env) 0) := by
  have hsh : env.shuffle (eligiblePool env) ≠ [] := by
    intro h
    apply hne
    unfold moviesToProcess
    rw [h]
    simp
  have hpool : eligiblePool env ≠ [] := by
    intro h
    apply hsh
    rw [h]
    rw [h] at hperm
    exact List.Perm.eq_nil hperm
  have hAD : afterDelay env ≠ [] := by
    intro h
    apply hpool
    unfold eligiblePool
    rw [h]
    rfl
  have hfl : fetchList env ≠ [] := by
    intro h
    exact hAD (afterDelay_eq_nil env h)
  obtain ⟨movies, hfetch⟩ : ∃ movies, env.fetch = some movies := by
    cases hf : env.fetch with
    | none => exact absurd (by simp [fetchList, hf]) hfl
    | some ms => exact ⟨ms, rfl⟩
  have hmv : movies ≠ [] := by
    intro h
    apply hfl
    simp [fetchList, hfetch, h]
  have hsc : 0 ≤ sampleCount env := by
    by_contra hneg
    push_neg at hneg
    have h0 : (sampleCount env).toNat = 0 := by omega
    apply hne
    unfold moviesToProcess
    rw [h0]
    simp
  have hsc2 : sampleCount env ≤ ((eligiblePool env).length : Int) := min_le_right _ _
  unfold runCycle
  rw [hfetch]
  simp only [if_neg hmv, if_neg hAD, if_neg hpool, if_pos (And.intro hsc hsc2)]

/-- A candidate with a missing, empty or unparseable date is kept by
the future-release filter exactly when process_no_release_dates is
enabled. -/
theorem keep_of_missing (parseDate : String → Option Int) (now : Int) (pnrd : Bool)
    (m : Movie) (hmiss : dateMissingOrUnparseable parseDate m = true) :
    keepWhenSkippingFuture parseDate now pnrd m = pnrd := by
  unfold keepWhenSkippingFuture
  unfold dateMissingOrUnparseable at hmiss
  cases hrd : m.releaseDate with
  | none => rfl
  | some s =>
    rw [hrd] at hmiss
    by_cases hs : s = ""
    · simp [hs]
    · cases hpd : parseDate s with
      | none => simp [hs, hpd]
      | some d => simp [hs, hpd] at hmiss

/-- A candidate with a missing, empty or unparseable date is never
delayed by should_delay_movie_search. -/
theorem sd_of_missing (parseDate : String → Option Int) (now dd : Int)
    (m : Movie) (hmiss : dateMissingOrUnparseable parseDate m = true) :
    should_delay_movie_search parseDate now m.releaseDate dd = false := by
  unfold should_delay_movie_search
  unfold dateMissingOrUnparseable at hmiss
  by_cases hdd : dd ≤ 0
  · simp [hdd]
  · rw [if_neg hdd]
    cases hrd : m.releaseDate with
    | none => rfl
    | some s =>
      rw [hrd] at hmiss
      by_cases hs : s = ""
      · simp [hs]
      · cases hpd : parseDate s with
        | none => simp [hs, hpd]
        | some d => simp [hs, hpd] at hmiss

/-- C1 counterexample: with skipFutureReleases disabled and
processNoReleaseDates disabled, a candidate with no releaseDate is
nevertheless in the pool eligible for selection, so the claimed iff does
not hold regardless of skipFutureReleases. -/
theorem c1_no_date_pool_counterexample :
    mNoDate ∈ eligiblePool envC1 ∧
    envC1.settings.processNoReleaseDates = false ∧
    envC1.settings.skipFutureReleases = false := by
  refine ⟨?_, rfl, rfl⟩
  decide

/-- C1 (amended): a not-yet-processed candidate with a missing or
unparseable releaseDate is in the eligible pool iff skipFutureReleases
is disabled or processNoReleaseDates is enabled; the claimed iff with
processNoReleaseDates therefore holds only when skipFutureReleases is
enabled, since the whole no-date policy lives inside the
skip-future-releases branch. -/
theorem c1_no_date_pool_amended (env : CycleEnv) (m : Movie)
    (hm : m ∈ fetchList env)
    (hmiss : dateMissingOrUnparseable env.parseDate m = true)
    (hnp : env.isProcessed m.id = false) :
    m ∈ eligiblePool env ↔
      (env.settings.skipFutureReleases = false ∨
        env.settings.processNoReleaseDates = true) := by
  have hkeep := keep_of_missing env.parseDate env.now env.settings.processNoReleaseDates m hmiss
  have hsd := sd_of_missing env.parseDate env.now env.settings.releaseDateDelayDays m hmiss
  by_cases hskip : env.settings.skipFutureReleases = true <;>
    by_cases hdd : 0 < env.settings.releaseDateDelayDays <;>
      simp [eligiblePool, afterDelay, afterFuture, hskip, hdd, List.mem_filter, hm,
        hkeep, hsd, hnp]

/-- C1 witness: with skipFutureReleases enabled and
processNoReleaseDates enabled the amended equivalence holds at a
concrete date-less candidate. -/
theorem c1_no_date_pool_witness :
    mNoDate ∈ fetchList envC1w ∧
    dateMissingOrUnparseable envC1w.parseDate mNoDate = true ∧
    envC1w.isProcessed mNoDate.id = false ∧
    (mNoDate ∈ eligiblePool envC1w ↔
      (envC1w.settings.skipFutureReleases = false ∨
        envC1w.settings.processNoReleaseDates = true)) :=
  ⟨by decide, by decide, by decide,
    c1_no_date_pool_amended envC1w mNoDate (by decide) (by decide) (by decide)⟩

/-- C2 counterexample: with huntCount = -1 and one remaining candidate
the cycle raises ValueError from random.sample instead of returning an
empty selection, refuting the claim for negative hunt counts. -/
theorem c2_sample_bound_counterexample :
    runCycle envC2 = Except.error ("ValueError: Sample larger than population or is negative") ∧
    envC2.settings.huntUpgradeMovies ≤ 0 := by
  constructor
  · rfl
  · decide

/-- C2 (amended): for every non-negative huntCount the selection is a
duplicate-free subset of the remaining candidates of size
min(huntCount, remaining) and no error is raised (huntCount = 0 thus
gives an empty selection); a negative huntCount with a non-empty
remaining pool instead raises ValueError from random.sample. -/
theorem c2_sample_bound_amended (env : CycleEnv)
    (hhunt : 0 ≤ env.settings.huntUpgradeMovies)
    (hperm : List.Perm (env.shuffle (eligiblePool env)) (eligiblePool env))
    (hnodup : (fetchList env).Nodup) :
    (moviesToProcess env).Nodup ∧
    (∀ m ∈ moviesToProcess env, m ∈ eligiblePool env) ∧
    (moviesToProcess env).length
        = min env.settings.huntUpgradeMovies.toNat (eligiblePool env).length ∧
    ∀ e, runCycle env ≠ Except.error e := by
  have hpn : (eligiblePool env).Nodup := eligiblePool_nodup env hnodup
  have hshn : (env.shuffle (eligiblePool env)).Nodup := hperm.symm.nodup hpn
  refine ⟨?_, ?_, ?_, ?_⟩
  · exact List.Nodup.sublist (List.take_sublist _ _) hshn
  · intro m hm
    exact hperm.subset ((List.take_sublist _ _).subset hm)
  · have hlen : (env.shuffle (eligiblePool env)).length = (eligiblePool env).length :=
      hperm.length_eq
    unfold moviesToProcess
    rw [List.length_take, hlen]
    unfold sampleCount
    omega
  · intro e
    have hsc : 0 ≤ sampleCount env :=
      le_min hhunt (Int.natCast_nonneg _)
    have hsc2 : sampleCount env ≤ ((eligiblePool env).length : Int) := min_le_right _ _
    cases hf : env.fetch with
    | none => simp [runCycle, hf]
    | some movies =>
      unfold runCycle
      rw [hf]
      by_cases hm : movies = []
      · simp [hm]
      · by_cases h4 : afterDelay env = []
        · simp [h4]
        · by_cases h5 : eligiblePool env = []
          · simp [h5]
          · simp only [if_neg hm, if_neg h4, if_neg h5, if_pos (And.intro hsc hsc2)]
            simp

/-- C2 witness: with huntCount = 1 over a duplicate-free pool of two
candidates the amended statement holds at a concrete environment. -/
theorem c2_sample_bound_witness :
    (0 ≤ envC2w.settings.huntUpgradeMovies ∧ (fetchList envC2w).Nodup) ∧
    ((moviesToProcess envC2w).Nodup ∧
      (∀ m ∈ moviesToProcess envC2w, m ∈ eligiblePool envC2w) ∧
      (moviesToProcess envC2w).length
          = min envC2w.settings.huntUpgradeMovies.toNat (eligiblePool envC2w).length ∧
      ∀ e, runCycle envC2w ≠ Except.error e) :=
  ⟨⟨by decide, by decide⟩,
    c2_sample_bound_amended envC2w (by decide) (List.Perm.refl _) (by decide)⟩

/-- C3 (confirmed): when the hourly cap check reports exceeded before
the first item of a non-empty work list, the cycle makes no movie_search
call, marks nothing processed and returns processedAny = false; and
whenever the cap check reports exceeded at iteration j, only items
strictly before position j can have been searched. -/
theorem c3_cap_halts (env : CycleEnv)
    (hperm : List.Perm (env.shuffle (eligiblePool env)) (eligiblePool env))
    (hne : moviesToProcess env ≠ [])
    (hstop : env.stopCheck 0 = false)
    (hcap : env.capCheck 0 = some true) :
    runCycle env = Except.ok CycleEffects.empty ∧
    CycleEffects.empty.searchCalls = [] ∧
    CycleEffects.empty.markedProcessed = [] ∧
    CycleEffects.empty.processedSomething = false ∧
    ∀ (t : Bool) (l : List Movie) (j : Nat), env.capCheck j = some true →
      (processLoop t env.capCheck env.stopCheck env.searchOk l 0).searchCalls
        ⊆ (l.take j).map Movie.id := by
  refine ⟨?_, rfl, rfl, rfl, ?_⟩
  · rw [runCycle_eq_ok env hperm hne]
    obtain ⟨m, rest, heq⟩ := List.exists_cons_of_ne_nil hne
    rw [heq]
    simp [processLoop, hstop, hcap]
  · intro t l j hj
    exact processLoop_cap_take t env.capCheck env.stopCheck env.searchOk j hj l 0
      (Nat.zero_le j)

/-- C3 witness: with the cap already exceeded over a one-element work
list, the cycle returns empty effects. -/
theorem c3_cap_halts_witness :
    (moviesToProcess envC3 ≠ [] ∧ envC3.stopCheck 0 = false ∧
      envC3.capCheck 0 = some true) ∧
    runCycle envC3 = Except.ok CycleEffects.empty ∧
    (processLoop false envC3.capCheck envC3.stopCheck envC3.searchOk [mPast] 0).searchCalls
      ⊆ ([mPast].take 0).map Movie.id :=
  ⟨⟨by decide, rfl, rfl⟩,
    (c3_cap_halts envC3 (List.Perm.refl _) (by decide) rfl rfl).1,
    (c3_cap_halts envC3 (List.Perm.refl _) (by decide) rfl rfl).2.2.2.2 false [mPast] 0 rfl⟩

/-- C4 (confirmed): if the stop signal is set before the first item the
loop makes zero movie_search calls; and whenever the stop signal is set
at iteration j, no item at or after position j is searched or marked
processed, so those items stay eligible for the next cycle. -/
theorem c4_stop_cancellation (t : Bool) (capCheck : Nat → Option Bool)
    (stopCheck searchOk : Nat → Bool) (l : List Movie) :
    (stopCheck 0 = true → processLoop t capCheck stopCheck searchOk l 0 = CycleEffects.empty) ∧
    ∀ j, stopCheck j = true →
      (processLoop t capCheck stopCheck searchOk l 0).searchCalls ⊆ (l.take j).map Movie.id ∧
      (processLoop t capCheck stopCheck searchOk l 0).markedProcessed
        ⊆ (l.take j).map Movie.id := by
  constructor
  · intro h0
    cases l with
    | nil => rfl
    | cons m rest => simp [processLoop, h0]
  · intro j hj
    have hsearch := processLoop_stop_take t capCheck stopCheck searchOk j hj l 0 (Nat.zero_le j)
    refine ⟨hsearch, ?_⟩
    have hmk := (processLoop_effects t capCheck stopCheck searchOk l 0).1
    rw [hmk]
    exact fun x hx => hsearch (List.mem_of_mem_filter hx)

/-- C4 witness: with the stop signal set from the start over a
one-element list, the loop produces empty effects and nothing at or
after position 0 is searched or marked. -/
theorem c4_stop_cancellation_witness :
    processLoop false (fun _ => some false) (fun _ => true) (fun _ => true) [mPast] 0
       = CycleEffects.empty ∧
    (processLoop false (fun _ => some false) (fun _ => true) (fun _ => true) [mPast] 0).searchCalls
      ⊆ ([mPast].take 0).map Movie.id :=
  ⟨(c4_stop_cancellation false (fun _ => some false) (fun _ => true) (fun _ => true) [mPast]).1
      rfl,
    ((c4_stop_cancellation false (fun _ => some false) (fun _ => true) (fun _ => true)
      [mPast]).2 0 rfl).1⟩

/-- C5 (confirmed): the delay predicate holds exactly when delayDays is
positive, the release-date string is present, non-empty and parseable,
and now is before releaseDate + delayDays; and a candidate surviving the
earlier filters is dropped by the delay stage exactly when the predicate
holds (in particular delayDays ≤ 0 never delays). -/
theorem c5_delay_predicate (pd : String → Option Int) (now dd : Int)
    (rds : Option String) (env : CycleEnv) (m : Movie) (hm : m ∈ afterFuture env) :
    (should_delay_movie_search pd now rds dd = true ↔
      (0 < dd ∧ ∃ s d, rds = some s ∧ s ≠ "" ∧ pd s = some d ∧ now < d + dd)) ∧
    (m ∈ afterDelay env ↔
      should_delay_movie_search env.parseDate env.now m.releaseDate
        env.settings.releaseDateDelayDays = false) := by
  constructor
  · unfold should_delay_movie_search
    by_cases hdd : dd ≤ 0
    · simp [hdd]
    · have hdd2 : 0 < dd := by omega
      rw [if_neg hdd]
      cases rds with
      | none => simp
      | some s =>
        by_cases hs : s = ""
        · simp [hs]
        · cases hpd : pd s with
          | none => simp [hs, hpd]
          | some d => simp [hs, hpd, hdd2]
  · unfold afterDelay
    by_cases hdd3 : 0 < env.settings.releaseDateDelayDays
    · simp [hdd3, List.mem_filter, hm]
    · have hle : env.settings.releaseDateDelayDays ≤ 0 := by omega
      have hsd : should_delay_movie_search env.parseDate env.now m.releaseDate
          env.settings.releaseDateDelayDays = false := by
        unfold should_delay_movie_search
        rw [if_pos hle]
      simp [hdd3, hm, hsd]

/-- C5 witness: the characterization instantiated at a one-day-old
release with a three-day delay (delayed), checked against the concrete
environment whose batch contains the date-less candidate. -/
theorem c5_delay_predicate_witness :
    mNoDate ∈ afterFuture envC1 ∧
    ((should_delay_movie_search pdTest 0 (some "past") 3 = true ↔
      ((0 : Int) < 3 ∧ ∃ s d, (some "past" : Option String) = some s ∧ s ≠ "" ∧
        pdTest s = some d ∧ 0 < d + 3)) ∧
    (mNoDate ∈ afterDelay envC1 ↔
      should_delay_movie_search envC1.parseDate envC1.now mNoDate.releaseDate
        envC1.settings.releaseDateDelayDays = false)) :=
  ⟨by decide, c5_delay_predicate pdTest 0 3 (some "past") envC1 mNoDate (by decide)⟩

/-- C6 (confirmed): with skipFutureReleases enabled, a candidate whose
releaseDate parses to a strictly future instant is absent from the
selected work list regardless of the other settings, and a candidate
whose parsed date is at or before now is kept by the future filter. -/
theorem c6_future_exclusion (env : CycleEnv) (m : Movie) (s : String) (d : Int)
    (hskip : env.settings.skipFutureReleases = true)
    (hperm : List.Perm (env.shuffle (eligiblePool env)) (eligiblePool env))
    (hrd : m.releaseDate = some s) (hs : s ≠ "")
    (hpd : env.parseDate s = some d) :
    (env.now < d → m ∉ moviesToProcess env) ∧
    (d ≤ env.now →
      keepWhenSkippingFuture env.parseDate env.now env.settings.processNoReleaseDates m
        = true) := by
  constructor
  · intro hfut hmem
    have h1 : m ∈ env.shuffle (eligiblePool env) := (List.take_sublist _ _).subset hmem
    have h2 : m ∈ eligiblePool env := hperm.subset h1
    have h3 : m ∈ afterDelay env := eligiblePool_subset env h2
    have h4 : m ∈ afterFuture env := afterDelay_subset env h3
    unfold afterFuture at h4
    rw [hskip] at h4
    simp only [if_true] at h4
    rw [List.mem_filter] at h4
    have hkeep := h4.2
    unfold keepWhenSkippingFuture at hkeep
    rw [hrd] at hkeep
    simp [hs, hpd, hfut] at hkeep
  · intro hle
    unfold keepWhenSkippingFuture
    rw [hrd]
    simp [hs, hpd]
    omega

/-- C6 witness: the future candidate of the concrete environment is
excluded from the work list, and the past candidate is kept by the
filter. -/
theorem c6_future_exclusion_witness :
    (envC6.settings.skipFutureReleases = true ∧ mFuture.releaseDate = some "future" ∧
      envC6.parseDate "future" = some 10 ∧ envC6.now < 10) ∧
    mFuture ∉ moviesToProcess envC6 ∧
    (envC6.parseDate "past" = some (-10) ∧ (-10 : Int) ≤ envC6.now ∧
      keepWhenSkippingFuture envC6.parseDate envC6.now envC6.settings.processNoReleaseDates
        mPast = true) :=
  ⟨⟨rfl, rfl, by decide, by decide⟩,
    (c6_future_exclusion envC6 mFuture "future" 10 rfl (List.Perm.refl _) rfl (by decide)
      (by decide)).1 (by decide),
    ⟨by decide, by decide,
      (c6_future_exclusion envC6 mPast "past" (-10) rfl (List.Perm.refl _) rfl (by decide)
        (by decide)).2 (by decide)⟩⟩

/-- C7 (confirmed): a failed or empty fetch, or a candidate list emptied
by the filters, ends the cycle at once with no movie_search call and
processedAny = false, returned as a normal (non-error) result. -/
theorem c7_empty_not_error (env : CycleEnv)
    (h : env.fetch = none ∨ env.fetch = some [] ∨ eligiblePool env = []) :
    runCycle env = Except.ok CycleEffects.empty ∧
    CycleEffects.empty.searchCalls = [] ∧
    CycleEffects.empty.processedSomething = false := by
  refine ⟨?_, rfl, rfl⟩
  rcases h with h | h | h
  · simp [runCycle, h]
  · simp [runCycle, h]
  · cases hf : env.fetch with
    | none => simp [runCycle, hf]
    | some movies =>
      unfold runCycle
      rw [hf]
      by_cases hm : movies = []
      · simp [hm]
      · by_cases hAD : afterDelay env = []
        · simp [if_neg hm, hAD]
        · simp [if_neg hm, if_neg hAD, h]

/-- C7 witness: a failed fetch yields the empty successful cycle. -/
theorem c7_empty_not_error_witness :
    envC7.fetch = none ∧
    runCycle envC7 = Except.ok CycleEffects.empty :=
  ⟨rfl, (c7_empty_not_error envC7 (Or.inl rfl)).1⟩

/-- C8 (confirmed): the dedup mark, the stat increment and the history
entry are recorded for exactly the items whose movie_search call
succeeded, the cycle result is true iff some searched item succeeded,
and a failed item never aborts the loop: with no stop and no cap hit
every selected item is searched regardless of failures. -/
theorem c8_success_effects (t : Bool) (capCheck : Nat → Option Bool)
    (stopCheck searchOk : Nat → Bool) (l : List Movie) (i : Nat) :
    (processLoop t capCheck stopCheck searchOk l i).markedProcessed
        = List.filter searchOk (processLoop t capCheck stopCheck searchOk l i).searchCalls ∧
    (processLoop t capCheck stopCheck searchOk l i).statIncrements
        = List.filter searchOk (processLoop t capCheck stopCheck searchOk l i).searchCalls ∧
    (processLoop t capCheck stopCheck searchOk l i).history
        = List.filter searchOk (processLoop t capCheck stopCheck searchOk l i).searchCalls ∧
    ((processLoop t capCheck stopCheck searchOk l i).processedSomething = true ↔
      ∃ x ∈ (processLoop t capCheck stopCheck searchOk l i).searchCalls, searchOk x = true) ∧
    ((∀ n, stopCheck n = false) → (∀ n, capCheck n ≠ some true) →
      (processLoop t capCheck stopCheck searchOk l i).searchCalls = l.map Movie.id) := by
  obtain ⟨h1, h2, h3, h4⟩ := processLoop_effects t capCheck stopCheck searchOk l i
  refine ⟨h1, h2, h3, ?_, ?_⟩
  · rw [h4]
    exact List.any_eq_true
  · intro hs hc
    exact processLoop_all_searched t capCheck stopCheck searchOk hs hc l i

/-- C8 witness: over a two-element list where only the second search
succeeds, the effect lists follow the success filter and every item is
searched. -/
theorem c8_success_effects_witness :
    (processLoop false (fun _ => some false) (fun _ => false) (fun n => n = 1)
        [mNoDate, mPast] 0).markedProcessed
      = List.filter (fun n => n = 1)
          (processLoop false (fun _ => some false) (fun _ => false) (fun n => n = 1)
            [mNoDate, mPast] 0).searchCalls ∧
    (processLoop false (fun _ => some false) (fun _ => false) (fun n => n = 1)
        [mNoDate, mPast] 0).searchCalls = [mNoDate, mPast].map Movie.id :=
  ⟨(c8_success_effects false (fun _ => some false) (fun _ => false) (fun n => n = 1)
      [mNoDate, mPast] 0).1,
    (c8_success_effects false (fun _ => some false) (fun _ => false) (fun n => n = 1)
      [mNoDate, mPast] 0).2.2.2.2 (fun _ => rfl) (fun _ => by simp)⟩

/-- C9 (confirmed): the reset endpoint fails with a 400 response and
creates no reset request when the app name is unknown, when swaparr is
not enabled, or when any other known app is not configured; the creation
of the pending reset request is attempted exactly for a known app that
is enabled (swaparr) or configured (the rest). -/
theorem c9_reset_not_configured (env : ResetEnv) (a : String) :
    (a ∉ knownResetApps →
      reset_app_cycle env a =
        { success := false, errorKind := some ResetError.invalidAppName, statusCode := 400,
          attemptedCreate := false }) ∧
    (a = "swaparr" → env.swaparrSettings.getD false = false →
      reset_app_cycle env a =
        { success := false, errorKind := some ResetError.notEnabled, statusCode := 400,
          attemptedCreate := false }) ∧
    (a ∈ knownResetApps → a ≠ "swaparr" → a ∉ env.configuredApps →
      reset_app_cycle env a =
        { success := false, errorKind := some ResetError.notConfigured, statusCode := 400,
          attemptedCreate := false }) ∧
    ((reset_app_cycle env a).attemptedCreate = true ↔
      (a ∈ knownResetApps ∧ (a = "swaparr" → env.swaparrSettings.getD false = true) ∧
        (a ≠ "swaparr" → a ∈ env.configuredApps))) := by
  refine ⟨?_, ?_, ?_, ?_⟩
  · intro hk
    simp [reset_app_cycle, hk]
  · intro hsw hen
    subst hsw
    have hk : ("swaparr" : String) ∈ knownResetApps := by decide
    simp [reset_app_cycle, hk, hen]
  · intro hk hsw hc
    simp [reset_app_cycle, hk, hsw, hc]
  · have hstep : ∀ nm, (resetCreateStep env nm).attemptedCreate = true := by
      intro nm
      unfold resetCreateStep
      cases env.createResetRequest nm with
      | none => rfl
      | some b => cases b <;> rfl
    by_cases hk : a ∈ knownResetApps
    · by_cases hsw : a = "swaparr"
      · subst hsw
        cases hv : env.swaparrSettings.getD false
        · simp [reset_app_cycle, hk, hv]
        · simp [reset_app_cycle, hk, hv, hstep]
      · by_cases hc : a ∈ env.configuredApps
        · simp [reset_app_cycle, hk, hsw, hc, hstep]
        · simp [reset_app_cycle, hk, hsw, hc]
    · simp [reset_app_cycle, hk]

/-- C9 witness: an unknown app name is rejected with the 400 failure and
no creation attempt, and the creation condition evaluates accordingly at
a configured radarr. -/
theorem c9_reset_not_configured_witness :
    ("plex" ∉ knownResetApps ∧
      reset_app_cycle envC9 "plex" =
        { success := false, errorKind := some ResetError.invalidAppName, statusCode := 400,
          attemptedCreate := false }) ∧
    ((reset_app_cycle envC9 "radarr").attemptedCreate = true ↔
      ("radarr" ∈ knownResetApps ∧
        ("radarr" = "swaparr" → envC9.swaparrSettings.getD false = true) ∧
        ("radarr" ≠ "swaparr" → "radarr" ∈ envC9.configuredApps))) :=
  ⟨⟨by decide, (c9_reset_not_configured envC9 "plex").1 (by decide)⟩,
    (c9_reset_not_configured envC9 "radarr").2.2.2⟩

/-- C10 (confirmed): for every outcome of the socket and HTTP
operations, test_connection returns a result record (never an
exception, since every handler of its single try block returns a
dictionary) whose message is present whenever success is false. -/
theorem c10_test_connection_total (env : TestEnv)
    (h : (test_connection env).success = false) :
    (test_connection env).message.isSome = true := by
  unfold test_connection
  split
  all_goals try rfl
  all_goals (split <;> try rfl)
  all_goals (split_ifs <;> try rfl)
  all_goals (split <;> rfl)

/-- C10 witness: a refused socket probe yields a failure with a
message. -/
theorem c10_test_connection_total_witness :
    (test_connection envC10).success = false ∧
    (test_connection envC10).message.isSome = true :=
  ⟨rfl, c10_test_connection_total envC10 rfl⟩

end Huntarr
